import Mathlib

/-!
# Verification of EnvioTurnosSenior (grid conversion + bounded-concurrency dispatch)

Shallow embedding of the core of the repository:

* `data_convert.py` — grid-to-API conversion: the schedule lookup table
  (`load_horarios_mapping`, `find_codigo_horario`), the `hhmm-hhmm` time-format
  converter (`converter_formato_horario`), and the per-cell conversion rules of
  `convert_dados_to_senior`.
* `envio_escala_api_corrigido.py` — the submission engine: per-record retry with
  backoff (`EscalaAPIClient._tentar_envio`), the semaphore-bounded batch
  (`processar_lote` / `enviar_programacao`), and the retry-cycle merge of
  `processar_escalas`.

Strings are modelled by Lean `String` (lists of characters); Python string
helpers (`strip`, `upper`, `split`, `zfill`, substring `in`) are re-implemented
below on `List Char`, faithful to their Python semantics on the inputs the
program handles.  Wall-clock fields of result dictionaries (`tempo_resposta`,
`timestamp`, `response_text`) are not modelled: no claim mentions them.
-/

namespace EnvioTurnos

/-! ## Python string helpers -/

/-- Whitespace characters removed by Python `str.strip()` (the ones occurring
in this program's data: space, tab, CR, LF). -/
def isPySpace (c : Char) : Bool :=
  c = ' ' || c = '\t' || c = '\n' || c = '\r'

/-- Python `str.strip()` on a character list. -/
def trimLC (l : List Char) : List Char :=
  ((l.dropWhile isPySpace).reverse.dropWhile isPySpace).reverse

/-- Python `str.strip()`. -/
def trimStr (s : String) : String := ⟨trimLC s.data⟩

/-- Python `str.upper()` (ASCII case mapping, via `Char.toUpper`). -/
def upperStr (s : String) : String := ⟨s.data.map Char.toUpper⟩

/-- Does `l` start with `pre`?  (Python `str.startswith`.) -/
def startsWithLC : List Char → List Char → Bool
  | _, [] => true
  | [], _ :: _ => false
  | a :: as, b :: bs => a = b && startsWithLC as bs

/-- Does `sub` occur contiguously inside `l`?  (Python `sub in s`.) -/
def containsLC : List Char → List Char → Bool
  | [], sub => startsWithLC [] sub
  | a :: as, sub => startsWithLC (a :: as) sub || containsLC as sub

/-- Python `sub in s` on strings. -/
def containsStr (s sub : String) : Bool := containsLC s.data sub.data

/-- Python `str.split(sep)` for a single-character separator. -/
def splitOnLC (sep : Char) : List Char → List (List Char)
  | [] => [[]]
  | c :: rest =>
    match splitOnLC sep rest with
    | [] => if c = sep then [[], []] else [[c]]
    | h :: t => if c = sep then [] :: h :: t else (c :: h) :: t

/-- Python `str.zfill(2)`: left-pad with `'0'` to width 2. -/
def zfill2 (l : List Char) : List Char :=
  List.replicate (2 - l.length) '0' ++ l

/-! ## Integer printing (models `astype(int).astype(str)`) -/

/-- Decimal digit character. -/
def digitChar (d : Nat) : Char :=
  if d = 0 then '0' else if d = 1 then '1' else if d = 2 then '2'
  else if d = 3 then '3' else if d = 4 then '4' else if d = 5 then '5'
  else if d = 6 then '6' else if d = 7 then '7' else if d = 8 then '8' else '9'

/-- Decimal digits of `n`, most significant first (fuel-based so that the
kernel can evaluate it). -/
def natDigitsAux : Nat → Nat → List Char
  | 0, _ => []
  | fuel + 1, n =>
    if n < 10 then [digitChar n]
    else natDigitsAux fuel (n / 10) ++ [digitChar (n % 10)]

/-- Decimal representation of a natural number. -/
def natToStr (n : Nat) : String := ⟨natDigitsAux (n + 1) n⟩

/-- Decimal representation of an integer (Python `str(int_value)`). -/
def intToStr (n : Int) : String :=
  if n < 0 then ⟨'-' :: (natToStr n.natAbs).data⟩ else natToStr n.natAbs

/-! ## Numeric parsing (models `pd.to_numeric(..., errors='coerce')` composed
with `astype(int)`, i.e. truncation toward zero, on decimal numerals) -/

/-- Parse a non-empty run of decimal digits; returns the value and the rest. -/
def parseDigits : List Char → Option (Nat × List Char)
  | [] => none
  | c :: rest =>
    if c.isDigit then
      some (parseDigitsAux (c.toNat - 48) rest)
    else none
where
  parseDigitsAux (acc : Nat) : List Char → Nat × List Char
    | [] => (acc, [])
    | c :: rest =>
      if c.isDigit then parseDigitsAux (acc * 10 + (c.toNat - 48)) rest
      else (acc, c :: rest)

/-- Parse a decimal numeral `[+-]?digits[.digits?]` (surrounding whitespace
stripped) and truncate toward zero, as `pd.to_numeric` followed by
`astype(int)` does; `none` when the text is not such a numeral. -/
def parseNumericInt (s : String) : Option Int :=
  let l := trimLC s.data
  let (sign, body) :=
    match l with
    | '-' :: rest => ((-1 : Int), rest)
    | '+' :: rest => ((1 : Int), rest)
    | _ => ((1 : Int), l)
  match parseDigits body with
  | none => none
  | some (n, rest) =>
    match rest with
    | [] => some (sign * n)
    | '.' :: frac =>
      if frac.all Char.isDigit then some (sign * n) else none
    | _ => none

/-! ## `data_convert.load_horarios_mapping` (lines 80–127)

The on-disk table is modelled as the list of `(CÓDIGO HORÁRIO, ID SCRIPT)`
cell pairs.  The load normalizes the code column with
`pd.to_numeric(..., errors='coerce').fillna(0).astype(int).astype(str)` and
trims the key column (`astype(str).str.strip()`). -/

/-- One row of the loaded `horarios.csv` table. -/
structure HorarioRow where
  codigo : String
  idScript : String
deriving DecidableEq, Repr

/-- `pd.to_numeric(x, errors='coerce').fillna(0).astype(int).astype(str)` on
one schedule-code cell. -/
def normalizeCodigo (s : String) : String :=
  match parseNumericInt s with
  | some n => intToStr n
  | none => intToStr 0

/-- `load_horarios_mapping`: normalize the code column, trim the key column. -/
def load_horarios_mapping (raw : List (String × String)) : List HorarioRow :=
  raw.map (fun p => ⟨normalizeCodigo p.1, trimStr p.2⟩)

/-! ## `data_convert.find_codigo_horario` (lines 130–162) -/

/-- First row whose `ID SCRIPT` equals the trimmed key; returns its (trimmed)
code, `none` when absent. -/
def find_codigo_horario (cod_escala : String) (rows : List HorarioRow) :
    Option String :=
  match rows.find? (fun r => r.idScript = trimStr cod_escala) with
  | some r => some (trimStr r.codigo)
  | none => none

/-! ## `data_convert.converter_formato_horario` (lines 165–198)

Regex `^(\d{4})-(\d{4})$`; on a match `abcd-efgh` the result is
`ab:cdef:gh`. -/

def converter_formato_horario (cell : String) : Option String :=
  match cell.data with
  | [a1, a2, a3, a4, h, b1, b2, b3, b4] =>
    if a1.isDigit && a2.isDigit && a3.isDigit && a4.isDigit && h = '-'
        && b1.isDigit && b2.isDigit && b3.isDigit && b4.isDigit then
      some ⟨[a1, a2, ':', a3, a4, b1, b2, ':', b3, b4]⟩
    else none
  | _ => none

/-! ## Per-cell conversion rules of `convert_dados_to_senior` (lines 318–407)

`processarCelula` processes one grid cell for one employee: it returns the
schedule code of the emitted record (`some codigo`) or `none` when the cell is
skipped, together with the updated statistics.  `codigo_base` is the result of
`find_codigo_horario(cod_escala, ...)` for the row; Python truthiness of a
string-or-`None` value is modelled by `truthyOpt`. -/

/-- The branch counters of the `stats` dictionary. -/
structure ConvStats where
  vazio_busca : Nat
  fe_busca : Nat
  tr_busca : Nat
  fr_9999 : Nat
  asterisco_ignorado : Nat
  formato_convertido : Nat
  formato_convertido_fallback : Nat
  codigo_nao_encontrado : Nat
deriving DecidableEq, Repr

def ConvStats.zero : ConvStats := ⟨0, 0, 0, 0, 0, 0, 0, 0⟩

/-- Python truthiness of an optional string (`None` and `''` are falsy). -/
def truthyOpt : Option String → Bool
  | none => false
  | some s => !(s = "")

/-- One grid cell: `raw` is the cell text (`row[col_index]`); the function
applies `strip().upper()` and then the rule chain of lines 329–394, followed by
the emission guard `if not skip_registro and codigo_horario` of line 397.
Returns the emitted schedule code (or `none`) and the updated stats. -/
def processarCelula (raw : String) (codigo_base : Option String)
    (horarios : List HorarioRow) (stats : ConvStats) :
    Option String × ConvStats :=
  let cv := upperStr (trimStr raw)
  let step : Option String × Bool × ConvStats :=
    if containsStr cv ("**") || cv = "**" then
      (none, true, { stats with asterisco_ignorado := stats.asterisco_ignorado + 1 })
    else if cv = "FR" then
      (some ("9999"), false, { stats with fr_9999 := stats.fr_9999 + 1 })
    else
      match converter_formato_horario cv with
      | some formato_convertido =>
        match find_codigo_horario formato_convertido horarios with
        | some codigo =>
          (some codigo, false,
            { stats with formato_convertido := stats.formato_convertido + 1 })
        | none =>
          if truthyOpt codigo_base then
            (codigo_base, false,
              { stats with formato_convertido_fallback :=
                  stats.formato_convertido_fallback + 1 })
          else
            (none, true,
              { stats with codigo_nao_encontrado := stats.codigo_nao_encontrado + 1 })
      | none =>
        if cv = "" || cv = "FE" || cv = "TR" then
          if truthyOpt codigo_base then
            if cv = "" then
              (codigo_base, false, { stats with vazio_busca := stats.vazio_busca + 1 })
            else if cv = "FE" then
              (codigo_base, false, { stats with fe_busca := stats.fe_busca + 1 })
            else
              (codigo_base, false, { stats with tr_busca := stats.tr_busca + 1 })
          else
            (none, true,
              { stats with codigo_nao_encontrado := stats.codigo_nao_encontrado + 1 })
        else
          if truthyOpt codigo_base then
            (codigo_base, false, stats)
          else
            (none, true,
              { stats with codigo_nao_encontrado := stats.codigo_nao_encontrado + 1 })
  match step with
  | (codigo_horario, skip_registro, stats') =>
    if !skip_registro && truthyOpt codigo_horario then (codigo_horario, stats')
    else (none, stats')

/-! ## `envio_escala_api_corrigido.EscalaAPIClient._tentar_envio` (lines 75–241)

One record's submission loop.  What each attempt's `try` body yields is
abstracted by an oracle `resp : Nat → RespEvent` indexed by the attempt number
(`tentativa`): an HTTP status, a request timeout (`asyncio.TimeoutError` /
`aiohttp.ServerTimeoutError`), or any other exception (which also covers a
failure while building the payload, e.g. `int()` on a non-numeric code).

Control flow reproduced faithfully:

* the date is converted from `DD/MM/YYYY` to `YYYY-MM-DD` when it contains `/`
  (lines 81–92); success and HTTP-error outcomes carry the *converted* date
  (line 155), while timeout and exception outcomes carry `data_original`
  (lines 196, 217);
* a 401 response `raise`s `TokenExpiradoException` (line 169), which is caught
  by the enclosing `except Exception` (line 207) — so it follows the generic
  exception path with message "Token de autenticação expirado ou inválido";
* HTTP-error backoff is `0.5 * 2^(tentativa-1)` seconds (line 178), exception
  backoff the same (line 209), timeout backoff `2 * 2^(tentativa-1)` (line 188).

The function returns the outcome together with the list of backoff sleeps
performed, in order. -/

/-- What one attempt's `try` body yields. -/
inductive RespEvent where
  | httpStatus (code : Nat)
  | timeoutErr
  | excErr (msg : String)
deriving DecidableEq, Repr

/-- One input record (one row of the flat CSV / one element of
`colaboradores`). -/
structure Colaborador where
  id_colaborador : String
  nome : String
  data : String
  codigo_horario : String
  numero_cadastro : String
  numero_empresa : String
  tipo_colaborador : String
deriving DecidableEq, Repr

/-- One result dictionary of `_tentar_envio` / `processar_lote`.  Wall-clock
fields (`tempo_resposta`, `timestamp`) and the response body excerpt are not
modelled.  `numero_retry` is the field added by the caller
(`processar_escalas`, lines 814–815 and 901). -/
structure Outcome where
  id_colaborador : String
  nome : String
  data : String
  codigo_horario : String
  status_code : Nat
  status : String
  erro : String
  tentativas : Nat
  numero_retry : Nat
deriving DecidableEq, Repr

/-- Date conversion of lines 81–92: `DD/MM/YYYY` → `YYYY-MM-DD` when the text
contains `/` and splits into three parts (with `zfill(2)` padding); otherwise
the text is returned unchanged. -/
def converterData (d : String) : String :=
  if containsLC d.data ['/'] then
    match splitOnLC '/' d.data with
    | [p0, p1, p2] => ⟨p2 ++ '-' :: zfill2 p1 ++ '-' :: zfill2 p0⟩
    | _ => d
  else d

/-- The generic-exception arm (`except Exception as e`, lines 207–226),
shared by real exceptions and by the swallowed `TokenExpiradoException`:
retry with `0.5 * 2^(t-1)` backoff, or a final `'erro'` outcome carrying the
original date and the exception text. -/
def excOutcome (c : Colaborador) (msg : String) (t : Nat) : Outcome :=
  { id_colaborador := c.id_colaborador, nome := c.nome, data := c.data,
    codigo_horario := c.codigo_horario, status_code := 0, status := "erro",
    erro := msg, tentativas := t, numero_retry := 0 }

/-- The attempt loop `for tentativa in range(1, self.max_retries + 1)`:
`t` is the current attempt, the fuel counts the remaining iterations.  Fuel 0
is the fall-through after the loop (lines 229–241, "nunca deveria chegar
aqui"). -/
def tentarEnvioGo (maxRetries : Nat) (resp : Nat → RespEvent)
    (c : Colaborador) : Nat → Nat → Outcome × List ℚ
  | _, 0 =>
    ({ id_colaborador := c.id_colaborador, nome := c.nome, data := c.data,
       codigo_horario := c.codigo_horario, status_code := 0, status := "erro",
       erro := "Falha desconhecida", tentativas := maxRetries,
       numero_retry := 0 }, [])
  | t, fuel + 1 =>
    let dataConv := converterData c.data
    match resp t with
    | .httpStatus code =>
      if code = 401 then
        -- `raise TokenExpiradoException(...)` (line 169), caught by the
        -- `except Exception` handler (line 207)
        if t < maxRetries then
          match tentarEnvioGo maxRetries resp c (t + 1) fuel with
          | (o, ds) => (o, ((1 : ℚ) / 2 * 2 ^ (t - 1)) :: ds)
        else
          (excOutcome c ("Token de autenticação expirado ou inválido") t, [])
      else if code ∈ [200, 201, 204] then
        ({ id_colaborador := c.id_colaborador, nome := c.nome, data := dataConv,
           codigo_horario := c.codigo_horario, status_code := code,
           status := "sucesso", erro := "", tentativas := t,
           numero_retry := 0 }, [])
      else if t < maxRetries then
        match tentarEnvioGo maxRetries resp c (t + 1) fuel with
        | (o, ds) => (o, ((1 : ℚ) / 2 * 2 ^ (t - 1)) :: ds)
      else
        ({ id_colaborador := c.id_colaborador, nome := c.nome, data := dataConv,
           codigo_horario := c.codigo_horario, status_code := code,
           status := "erro", erro := "", tentativas := t,
           numero_retry := 0 }, [])
    | .timeoutErr =>
      if t < maxRetries then
        match tentarEnvioGo maxRetries resp c (t + 1) fuel with
        | (o, ds) => (o, ((2 : ℚ) * 2 ^ (t - 1)) :: ds)
      else
        ({ id_colaborador := c.id_colaborador, nome := c.nome, data := c.data,
           codigo_horario := c.codigo_horario, status_code := 0,
           status := "timeout", erro := "Timeout", tentativas := t,
           numero_retry := 0 }, [])
    | .excErr msg =>
      if t < maxRetries then
        match tentarEnvioGo maxRetries resp c (t + 1) fuel with
        | (o, ds) => (o, ((1 : ℚ) / 2 * 2 ^ (t - 1)) :: ds)
      else
        (excOutcome c msg t, [])

/-- `_tentar_envio`: run the attempt loop from attempt 1. -/
def tentarEnvio (maxRetries : Nat) (resp : Nat → RespEvent)
    (c : Colaborador) : Outcome × List ℚ :=
  tentarEnvioGo maxRetries resp c 1 maxRetries

/-! ## Batch and retry-cycle bookkeeping of `processar_escalas`
(lines 733–941) -/

/-- `processar_lote` viewed as a pure map of the per-record submission over
the batch (each task owns its record and produces exactly one outcome;
ordering is preserved by `asyncio.gather`). -/
def processar_lote (envia : Colaborador → Outcome)
    (colaboradores : List Colaborador) : List Outcome :=
  colaboradores.map envia

/-- `separar_sucessos_e_erros` (lines 440–452). -/
def separar_sucessos_e_erros (resultados : List Outcome) :
    List Outcome × List Outcome :=
  (resultados.filter (fun r => r.status = "sucesso"),
   resultados.filter (fun r => ¬ r.status = "sucesso"))

/-- The merge key `f"{id_colaborador}_{data}"` (lines 900, 906). -/
def chaveOutcome (o : Outcome) : String :=
  o.id_colaborador ++ "_" ++ o.data

/-- Lookup in `novos_resultados_dict`: the dictionary is built by inserting
the retagged new outcomes in order, later insertions overwriting earlier ones,
so lookup returns the *last* matching entry (lines 898–902). -/
def buscarNovo (k : String) (tagged : List Outcome) : Option Outcome :=
  tagged.reverse.find? (fun n => chaveOutcome n = k)

/-- The retry-merge of lines 896–908: tag each new outcome with the current
cycle number, then replace every stored outcome whose key appears in the
dictionary. -/
def atualizarResultados (resultados novos : List Outcome) (ciclo : Nat) :
    List Outcome :=
  let tagged := novos.map (fun n => { n with numero_retry := ciclo })
  resultados.map (fun r =>
    match buscarNovo (chaveOutcome r) tagged with
    | some n => n
    | none => r)

/-- Rebuilding the minimal `colaborador` dictionaries for the failed records
(lines 879–888). -/
def colaboradoresRetry (erros : List Outcome) : List Colaborador :=
  erros.map (fun e =>
    { id_colaborador := e.id_colaborador, nome := e.nome, data := e.data,
      codigo_horario := e.codigo_horario, numero_cadastro := "",
      numero_empresa := "", tipo_colaborador := "1" })

/-- One iteration of the interactive retry loop of `processar_escalas`
(lines 845–924): select the non-success outcomes, resubmit exactly them, and
merge the new outcomes back into the store.  Returns the resubmitted records,
the new outcomes, and the updated store. -/
def cicloRetry (envia : Colaborador → Outcome) (resultados : List Outcome)
    (ciclo : Nat) : List Colaborador × List Outcome × List Outcome :=
  let erros := (separar_sucessos_e_erros resultados).2
  let cols := colaboradoresRetry erros
  let novos := processar_lote envia cols
  (cols, novos, atualizarResultados resultados novos ciclo)

/-! ## Semaphore-bounded dispatch (`processar_lote`, lines 243–259, and
`enviar_programacao`, lines 55–73)

`processar_lote` creates `asyncio.Semaphore(max_concurrent)` and one task per
record; each task runs `semaphore.acquire()` before its submission and
`semaphore.release()` in the `finally:` block.  The protocol is modelled as a
transition system: one《sem》counter plus one phase per task.  `acquire` moves a
waiting task in flight and decrements the counter (only possible when it is
positive); `finish` completes an in-flight task and releases the counter.
A task is "in flight" exactly while it holds the semaphore. -/

/-- Phase of one submission task. -/
inductive TaskPhase where
  | waiting
  | inFlight
  | finished
deriving DecidableEq, Repr

/-- Scheduler state: semaphore counter and the phase of every task. -/
structure DispatchState where
  sem : Nat
  tasks : List TaskPhase
deriving DecidableEq, Repr

/-- Number of submissions currently in flight. -/
def inFlightCount (l : List TaskPhase) : Nat :=
  l.countP (fun t => t = .inFlight)

/-- One scheduler step: a waiting task acquires the semaphore (requires a
positive counter), or an in-flight task completes and releases it. -/
inductive DispatchStep : DispatchState → DispatchState → Prop where
  | acquire (s : Nat) (pre post : List TaskPhase) :
      DispatchStep ⟨s + 1, pre ++ .waiting :: post⟩ ⟨s, pre ++ .inFlight :: post⟩
  | finish (s : Nat) (pre post : List TaskPhase) :
      DispatchStep ⟨s, pre ++ .inFlight :: post⟩ ⟨s + 1, pre ++ .finished :: post⟩

/-- Initial state of `processar_lote` with `n` queued records:
counter at `max_concurrent`, every task waiting. -/
def initialDispatch (maxConcurrent n : Nat) : DispatchState :=
  ⟨maxConcurrent, List.replicate n .waiting⟩

/-- States reachable during the batch. -/
def DispatchReachable (maxConcurrent n : Nat) (st : DispatchState) : Prop :=
  Relation.ReflTransGen DispatchStep (initialDispatch maxConcurrent n) st

/-! ## `detectar_formato_csv` (lines 544–587) -/

/-- `[col.strip().upper() for col in header]` (line 562). -/
def headerClean (header : List String) : List String :=
  header.map (fun col => upperStr (trimStr col))

/-- The grid criteria of lines 566–568: a column containing `NOME`, a column
containing `MAT` but not `MATRICULA`, and a column containing both `COD` and
`ESCALA`. -/
def gridCriteria (header : List String) : Bool :=
  let hc := headerClean header
  hc.any (fun col => containsStr col ("NOME")) &&
  hc.any (fun col => containsStr col ("MAT") && !containsStr col ("MATRICULA")) &&
  hc.any (fun col => containsStr col ("COD") && containsStr col ("ESCALA"))

/-- The flat ("api") criteria of lines 575–578: a column containing
`ID_COLABORADOR`, a column equal to `NOME`, a column equal to `DATA`, and a
column containing both `CODIGO` and `HORARIO`. -/
def apiCriteria (header : List String) : Bool :=
  let hc := headerClean header
  hc.any (fun col => containsStr col ("ID_COLABORADOR")) &&
  hc.any (fun col => col = "NOME") &&
  hc.any (fun col => col = "DATA") &&
  hc.any (fun col => containsStr col ("CODIGO") && containsStr col ("HORARIO"))

/-- `detectar_formato_csv` on the header row: grid criteria checked first,
then the api criteria, otherwise unknown. -/
def detectar_formato_csv (header : List String) : String :=
  if header.isEmpty then "desconhecido"
  else if gridCriteria header then "grid"
  else if apiCriteria header then "api"
  else "desconhecido"

/-! ## Helper lemmas -/

/-- Every character of a matched prefix occurs in the list. -/
theorem startsWithLC_subset :
    ∀ (l sub : List Char), startsWithLC l sub = true → ∀ c ∈ sub, c ∈ l := by
  intro l
  induction l with
  | nil =>
    intro sub h c hc
    cases sub with
    | nil => simp at hc
    | cons b bs => simp [startsWithLC] at h
  | cons a as ih =>
    intro sub h c hc
    cases sub with
    | nil => simp at hc
    | cons b bs =>
      simp only [startsWithLC, Bool.and_eq_true, decide_eq_true_eq] at h
      rcases List.mem_cons.mp hc with rfl | hmem
      · exact h.1 ▸ List.mem_cons_self _ _
      · exact List.mem_cons_of_mem _ (ih bs h.2 c hmem)

/-- Every character of a substring occurs in the list. -/
theorem containsLC_subset :
    ∀ (l sub : List Char), containsLC l sub = true → ∀ c ∈ sub, c ∈ l := by
  intro l
  induction l with
  | nil =>
    intro sub h c hc
    cases sub with
    | nil => simp at hc
    | cons b bs => simp [containsLC, startsWithLC] at h
  | cons a as ih =>
    intro sub h c hc
    simp only [containsLC, Bool.or_eq_true] at h
    rcases h with h | h
    · exact startsWithLC_subset _ _ h c hc
    · exact List.mem_cons_of_mem _ (ih sub h c hc)

/-- `digitChar` never produces a dot. -/
theorem digitChar_ne_dot (d : Nat) : digitChar d ≠ '.' := by
  unfold digitChar
  repeat' split
  all_goals decide

/-- The digit printer never produces a dot. -/
theorem dot_not_mem_natDigitsAux : ∀ fuel n, '.' ∉ natDigitsAux fuel n := by
  intro fuel
  induction fuel with
  | zero => intro n h; simp [natDigitsAux] at h
  | succ f ih =>
    intro n h
    unfold natDigitsAux at h
    split at h
    · rcases List.mem_singleton.mp h with h1
      exact digitChar_ne_dot n h1.symm
    · rcases List.mem_append.mp h with h1 | h1
      · exact ih _ h1
      · exact digitChar_ne_dot _ (List.mem_singleton.mp h1).symm

/-- The integer printer never produces a dot. -/
theorem dot_not_mem_intToStr (n : Int) : '.' ∉ (intToStr n).data := by
  unfold intToStr
  split
  · intro h
    rcases List.mem_cons.mp h with h1 | h1
    · exact absurd h1 (by decide)
    · exact dot_not_mem_natDigitsAux _ _ h1
  · exact dot_not_mem_natDigitsAux _ _

/-- Every normalized schedule code is the decimal text of an integer. -/
theorem normalizeCodigo_integer_text (s : String) :
    ∃ n : Int, normalizeCodigo s = intToStr n := by
  unfold normalizeCodigo
  rcases parseNumericInt s with _ | n
  · exact ⟨0, rfl⟩
  · exact ⟨n, rfl⟩

/-- Shape of a string accepted by `converter_formato_horario`: nine
characters, each a digit or the hyphen. -/
theorem converter_chars {cv fmt : String}
    (h : converter_formato_horario cv = some fmt) :
    cv.data.length = 9 ∧ ∀ c ∈ cv.data, c.isDigit = true ∨ c = '-' := by
  unfold converter_formato_horario at h
  split at h
  case _ a1 a2 a3 a4 hh b1 b2 b3 b4 heq =>
    split at h
    case isTrue hcond =>
      simp only [Bool.and_eq_true, decide_eq_true_eq] at hcond
      refine ⟨by rw [heq]; rfl, ?_⟩
      intro c hc
      rw [heq] at hc
      simp only [List.mem_cons, List.not_mem_nil, or_false] at hc
      obtain ⟨⟨⟨⟨⟨⟨⟨⟨h1, h2⟩, h3⟩, h4⟩, h5⟩, h6⟩, h7⟩, h8⟩, h9⟩ := hcond
      rcases hc with rfl | rfl | rfl | rfl | rfl | rfl | rfl | rfl | rfl
      · exact Or.inl h1
      · exact Or.inl h2
      · exact Or.inl h3
      · exact Or.inl h4
      · exact Or.inr h5
      · exact Or.inl h6
      · exact Or.inl h7
      · exact Or.inl h8
      · exact Or.inl h9
    case isFalse => exact absurd h (by simp)
  case _ => exact absurd h (by simp)

/-- A string accepted by the time-format converter contains no `**`. -/
theorem converter_star_free {cv fmt : String}
    (h : converter_formato_horario cv = some fmt) :
    containsStr cv ("**") = false := by
  rcases converter_chars h with ⟨-, hchars⟩
  by_contra hc
  rw [Bool.not_eq_false] at hc
  have hstar : '*' ∈ cv.data :=
    containsLC_subset _ _ hc '*' (by decide)
  rcases hchars _ hstar with h1 | h1
  · exact absurd h1 (by decide)
  · exact absurd h1 (by decide)

/-- A string accepted by the converter has nine characters, so it differs
from any two-character string. -/
theorem converter_ne_of_len2 {cv fmt : String}
    (h : converter_formato_horario cv = some fmt) (t : String)
    (ht : t.data.length = 2) : cv ≠ t := by
  rcases converter_chars h with ⟨hlen, -⟩
  intro he
  rw [he] at hlen
  omega

/-- No task of the initial state is in flight. -/
theorem inFlightCount_replicate_waiting (n : Nat) :
    inFlightCount (List.replicate n TaskPhase.waiting) = 0 := by
  induction n with
  | zero => rfl
  | succ k ih =>
    simp only [List.replicate, inFlightCount, List.countP_cons] at ih ⊢
    simp [ih]

/-- Semaphore invariant: in-flight tasks and the counter always sum to the
concurrency limit. -/
theorem dispatch_invariant (maxConcurrent n : Nat) (st : DispatchState)
    (h : DispatchReachable maxConcurrent n st) :
    inFlightCount st.tasks + st.sem = maxConcurrent := by
  induction h with
  | refl =>
    simp [initialDispatch, inFlightCount_replicate_waiting]
  | tail hsteps hstep ih =>
    cases hstep with
    | acquire s pre post =>
      simp [inFlightCount, List.countP_append, List.countP_cons] at ih ⊢
      omega
    | finish s pre post =>
      simp [inFlightCount, List.countP_append, List.countP_cons] at ih ⊢
      omega

/-! ## Concrete fixtures used by the claim theorems and witnesses -/

/-- A concrete input record with the usual `DD/MM/YYYY` date. -/
def colW : Colaborador :=
  ⟨"303-1-100", "ANA", "01/10/2025", "1234", "", "", "1"⟩

/-- Per-record submission against a remote endpoint that always answers
HTTP 500. -/
def envia500 (c : Colaborador) : Outcome :=
  (tentarEnvio 3 (fun _ => RespEvent.httpStatus 500) c).1

/-- The outcome `_tentar_envio` produces for `colW` when every attempt times
out: `status = 'timeout'` and the date kept in `DD/MM/YYYY` form. -/
def timeoutOutcomeW : Outcome :=
  (tentarEnvio 3 (fun _ => RespEvent.timeoutErr) colW).1

/-- A stored outcome of a successful first-cycle submission. -/
def okOutcome : Outcome :=
  ⟨"303-1-100", "ANA", "2025-10-01", "1234", 200, "sucesso", "", 1, 0⟩

/-- State of a 100-record batch with limit 5 after one acquire step. -/
def stW : DispatchState :=
  ⟨4, TaskPhase.inFlight :: List.replicate 99 TaskPhase.waiting⟩

/-- A header satisfying both the grid and the flat ("api") criteria. -/
def ambHeader : List String :=
  ["ID_COLABORADOR", "NOME", "DATA", "CODIGO_HORARIO", "MAT", "COD. ESCALA"]

/-! ## Claim theorems -/

/-- C1: the claim says an HTTP 401 raises a distinguished credential-expired
condition that propagates out of the whole dispatch batch and is not counted
as a per-record retry.  The code contradicts this: `TokenExpiradoException`
is raised inside the `try` of the attempt loop and immediately caught by the
generic `except Exception` handler (line 207), so a record whose every
attempt returns 401 is retried with the generic 0.5s/1s backoff and ends as
an ordinary per-record outcome with `status = 'erro'`, `tentativas = 3` and
the token message in its error field — nothing propagates. -/
theorem http401_swallowed_as_generic_error :
    (tentarEnvio 3 (fun _ => RespEvent.httpStatus 401) colW).1 =
      ⟨"303-1-100", "ANA", "01/10/2025", "1234", 0, "erro",
        "Token de autenticação expirado ou inválido", 3, 0⟩ ∧
    (tentarEnvio 3 (fun _ => RespEvent.httpStatus 401) colW).2 = [1/2, 1] :=
  ⟨by decide, by simp [tentarEnvio, tentarEnvioGo, colW]⟩

/-- C2: the claim says every resubmitted record's new outcome overwrites the
prior outcome under the same `(employeeId, date)` key, in particular when the
prior outcome's status is `timeout`.  The code violates this: a prior timeout
outcome stores the date as `DD/MM/YYYY` (line 196), while a resubmission that
gets an HTTP response stores it as `YYYY-MM-DD` (line 155), so the merge keys
`f"{id}_{data}"` differ, the update loop of lines 905–908 matches nothing,
the store keeps the stale timeout row (still `numero_retry = 0`) and the new
outcome is dropped. -/
theorem retry_merge_drops_new_outcome_for_timeout_prior :
    timeoutOutcomeW.status = "timeout" ∧
    timeoutOutcomeW.data = "01/10/2025" ∧
    timeoutOutcomeW.numero_retry = 0 ∧
    (cicloRetry envia500 [timeoutOutcomeW] 1).2.1 =
      [⟨"303-1-100", "ANA", "2025-10-01", "1234", 500, "erro", "", 3, 0⟩] ∧
    (cicloRetry envia500 [timeoutOutcomeW] 1).2.2 = [timeoutOutcomeW] ∧
    (∀ n ∈ (cicloRetry envia500 [timeoutOutcomeW] 1).2.1,
      chaveOutcome n ≠ chaveOutcome timeoutOutcomeW) := by
  decide

/-- C3: a record whose endpoint returns a non-2xx, non-401 status on every
attempt is attempted exactly 3 times, with backoff sleeps of 0.5s then 1s
between the attempts, and its final outcome has `status = 'erro'` and
`tentativas = 3`. -/
theorem non2xx_every_attempt_gives_three_attempts
    (resp : Nat → RespEvent) (codes : Nat → Nat) (c : Colaborador)
    (hresp : ∀ t, resp t = RespEvent.httpStatus (codes t))
    (h2xx : ∀ t, ¬ (200 ≤ codes t ∧ codes t ≤ 299))
    (h401 : ∀ t, codes t ≠ 401) :
    (tentarEnvio 3 resp c).1.status = "erro" ∧
    (tentarEnvio 3 resp c).1.tentativas = 3 ∧
    (tentarEnvio 3 resp c).2 = [1/2, 1] := by
  have hmem : ∀ t, codes t ∉ ([200, 201, 204] : List Nat) := by
    intro t hm
    have h := h2xx t
    simp [List.mem_cons] at hm
    omega
  simp [tentarEnvio, tentarEnvioGo, hresp, h401, hmem]

/-- C3 witness: an endpoint answering HTTP 500 on every attempt. -/
theorem non2xx_every_attempt_gives_three_attempts_witness :
    (tentarEnvio 3 (fun _ => RespEvent.httpStatus 500) colW).1.status = "erro" ∧
    (tentarEnvio 3 (fun _ => RespEvent.httpStatus 500) colW).1.tentativas = 3 ∧
    (tentarEnvio 3 (fun _ => RespEvent.httpStatus 500) colW).2 = [1/2, 1] :=
  non2xx_every_attempt_gives_three_attempts
    (fun _ => RespEvent.httpStatus 500) (fun _ => 500) colW (fun _ => rfl)
    (fun t => by show ¬ (200 ≤ 500 ∧ 500 ≤ 299); omega)
    (fun t => by show (500 : Nat) ≠ 401; omega)

/-- C4: in every state the dispatch batch can reach, at most
`concurrencyLimit` submissions are in flight, independent of the number of
queued records (limits 1–50 per the caller contract). -/
theorem dispatch_in_flight_le_limit (maxConcurrent n : Nat)
    (st : DispatchState) (hlo : 1 ≤ maxConcurrent) (hhi : maxConcurrent ≤ 50)
    (h : DispatchReachable maxConcurrent n st) :
    inFlightCount st.tasks ≤ maxConcurrent := by
  have hinv := dispatch_invariant maxConcurrent n st h
  omega

/-- C4 witness: 100 records with limit 5, one acquire step taken. -/
theorem dispatch_in_flight_le_limit_witness :
    1 ≤ 5 ∧ 5 ≤ 50 ∧ DispatchReachable 5 100 stW ∧
    inFlightCount stW.tasks ≤ 5 :=
  ⟨by omega, by omega,
    Relation.ReflTransGen.single
      (DispatchStep.acquire 4 [] (List.replicate 99 TaskPhase.waiting)),
    dispatch_in_flight_le_limit 5 100 stW (by omega) (by omega)
      (Relation.ReflTransGen.single
        (DispatchStep.acquire 4 [] (List.replicate 99 TaskPhase.waiting)))⟩

/-- C5: a grid cell matching the 4-digits-hyphen-4-digits pattern is
reformatted to the `HH:MMHH:MM` composite key and looked up; when the lookup
finds nothing and the row has a `codigo_base`, the emitted record uses
`codigo_base` and `formato_convertido_fallback` increments by exactly 1. -/
theorem time_range_fallback_uses_codigo_base
    (raw b fmt : String) (codigo_base : Option String)
    (horarios : List HorarioRow) (stats : ConvStats)
    (hconv : converter_formato_horario (upperStr (trimStr raw)) = some fmt)
    (hfind : find_codigo_horario fmt horarios = none)
    (hbase : codigo_base = some b) (hb : ¬ b = "") :
    processarCelula raw codigo_base horarios stats =
      (some b, { stats with formato_convertido_fallback :=
          stats.formato_convertido_fallback + 1 }) := by
  have hstar := converter_star_free hconv
  have hne1 := converter_ne_of_len2 hconv ("**") (by decide)
  have hne2 := converter_ne_of_len2 hconv ("FR") (by decide)
  subst hbase
  simp only [processarCelula, hstar, hne1, hne2, hconv, hfind]
  simp [truthyOpt, hb]

/-- C5 witness: cell `0800-1600`, a table without key `08:0016:00`, base
code `123`. -/
theorem time_range_fallback_uses_codigo_base_witness :
    converter_formato_horario (upperStr (trimStr ("0800-1600"))) =
      some ("08:0016:00") ∧
    find_codigo_horario ("08:0016:00") [⟨"777", "X1"⟩] = none ∧
    processarCelula ("0800-1600") (some ("123")) [⟨"777", "X1"⟩]
      ConvStats.zero =
      (some ("123"), { ConvStats.zero with formato_convertido_fallback := 1 }) :=
  ⟨by decide, by decide,
    time_range_fallback_uses_codigo_base ("0800-1600") ("123") ("08:0016:00")
      (some ("123")) [⟨"777", "X1"⟩] ConvStats.zero (by decide) (by decide)
      rfl (by decide)⟩

/-- C6: a grid cell whose trimmed, upper-cased value is exactly `FR` emits a
record with schedule code `"9999"`, whatever the lookup table and the row's
`codigo_base` contain. -/
theorem fr_cell_yields_9999 (raw : String) (codigo_base : Option String)
    (horarios : List HorarioRow) (stats : ConvStats)
    (h : upperStr (trimStr raw) = "FR") :
    processarCelula raw codigo_base horarios stats =
      (some ("9999"), { stats with fr_9999 := stats.fr_9999 + 1 }) := by
  have h1 : containsStr ("FR") ("**") = false := by decide
  have h2 : ("FR" : String) ≠ "**" := by decide
  simp only [processarCelula, h, h1, h2]
  simp [truthyOpt]

/-- C6 witness: cell `" fr "`, a lookup table that even maps the key `FR`
to a different code, and a present base code. -/
theorem fr_cell_yields_9999_witness :
    upperStr (trimStr (" fr ")) = "FR" ∧
    processarCelula (" fr ") (some ("111")) [⟨"123", "FR"⟩] ConvStats.zero =
      (some ("9999"), { ConvStats.zero with fr_9999 := 1 }) :=
  ⟨by decide,
    fr_cell_yields_9999 (" fr ") (some ("111")) [⟨"123", "FR"⟩]
      ConvStats.zero (by decide)⟩

/-- C7: every schedule code stored by the lookup-table load is the decimal
text of an integer and contains no decimal point (no fractional suffix). -/
theorem loaded_codes_are_integer_text (raw : List (String × String))
    (r : HorarioRow) (h : r ∈ load_horarios_mapping raw) :
    (∃ n : Int, r.codigo = intToStr n) ∧
    containsLC r.codigo.data ['.'] = false := by
  rcases List.mem_map.mp h with ⟨p, hp, rfl⟩
  refine ⟨normalizeCodigo_integer_text p.1, ?_⟩
  show containsLC (normalizeCodigo p.1).data ['.'] = false
  rcases normalizeCodigo_integer_text p.1 with ⟨n, hn⟩
  rw [hn]
  by_contra hc
  rw [Bool.not_eq_false] at hc
  exact dot_not_mem_intToStr n (containsLC_subset _ _ hc '.' (by decide))

/-- C7 witness: the source value `"1234.0"` is stored as `"1234"`. -/
theorem loaded_codes_are_integer_text_witness :
    HorarioRow.mk ("1234") ("T1") ∈ load_horarios_mapping [("1234.0", "T1")] ∧
    (∃ n : Int, (HorarioRow.mk ("1234") ("T1")).codigo = intToStr n) ∧
    containsLC (HorarioRow.mk ("1234") ("T1")).codigo.data ['.'] = false :=
  ⟨by decide,
    (loaded_codes_are_integer_text [("1234.0", "T1")]
      (HorarioRow.mk ("1234") ("T1")) (by decide)).1,
    (loaded_codes_are_integer_text [("1234.0", "T1")]
      (HorarioRow.mk ("1234") ("T1")) (by decide)).2⟩

/-- C8: a retry cycle over a store in which every outcome is a success
selects nothing, resubmits nothing, produces zero new outcomes and returns
the store unchanged. -/
theorem retry_cycle_on_success_only_is_noop (envia : Colaborador → Outcome)
    (resultados : List Outcome) (ciclo : Nat)
    (h : ∀ r ∈ resultados, r.status = "sucesso") :
    (cicloRetry envia resultados ciclo).1 = [] ∧
    (cicloRetry envia resultados ciclo).2.1 = [] ∧
    (cicloRetry envia resultados ciclo).2.2 = resultados := by
  have herr : (separar_sucessos_e_erros resultados).2 = [] := by
    simp only [separar_sucessos_e_erros]
    rw [List.filter_eq_nil_iff]
    intro r hr
    simp [h r hr]
  simp only [cicloRetry, herr, colaboradoresRetry, processar_lote,
    List.map_nil]
  refine ⟨trivial, trivial, ?_⟩
  simp only [atualizarResultados, List.map_nil]
  have hb : ∀ r : Outcome, buscarNovo (chaveOutcome r) [] = none :=
    fun r => rfl
  simp [hb]

/-- C8 witness: a store holding one success outcome is left untouched. -/
theorem retry_cycle_on_success_only_is_noop_witness :
    (∀ r ∈ [okOutcome], r.status = "sucesso") ∧
    (cicloRetry envia500 [okOutcome] 7).1 = [] ∧
    (cicloRetry envia500 [okOutcome] 7).2.1 = [] ∧
    (cicloRetry envia500 [okOutcome] 7).2.2 = [okOutcome] :=
  ⟨by decide,
    (retry_cycle_on_success_only_is_noop envia500 [okOutcome] 7 (by decide)).1,
    (retry_cycle_on_success_only_is_noop envia500 [okOutcome] 7 (by decide)).2.1,
    (retry_cycle_on_success_only_is_noop envia500 [okOutcome] 7 (by decide)).2.2⟩

/-- C9 counterexample: a header satisfying both the grid and the flat
criteria is classified `grid` (the grid check runs first), not flat as the
claim requires. -/
theorem both_criteria_header_classified_grid :
    gridCriteria ambHeader = true ∧ apiCriteria ambHeader = true ∧
    detectar_formato_csv ambHeader = "grid" := by decide

/-- C9 amended: the detector classifies a header as `grid` exactly when the
grid criteria hold — so a header satisfying both criteria sets is converted,
while a header that fails the grid criteria is never converted. -/
theorem detector_grid_iff_grid_criteria (header : List String) :
    detectar_formato_csv header = "grid" ↔ gridCriteria header = true := by
  unfold detectar_formato_csv
  split_ifs with h1 h2 h3
  · constructor
    · intro hc; exact absurd hc (by decide)
    · intro hc
      cases header with
      | nil => exact absurd hc (by decide)
      | cons a as => simp at h1
  · simp [h2]
  · constructor
    · intro hc; exact absurd hc (by decide)
    · intro hc; exact absurd hc h2
  · constructor
    · intro hc; exact absurd hc (by decide)
    · intro hc; exact absurd hc h2

/-- C10: a schedule-code cell that does not parse as a number is coerced to
the string `"0"` (not rejected), and looking up that row's key afterwards
returns `"0"` instead of a not-found result. -/
theorem unparseable_code_stored_as_zero (c k : String)
    (rest : List (String × String)) (h : parseNumericInt c = none) :
    normalizeCodigo c = "0" ∧
    find_codigo_horario k (load_horarios_mapping ((c, k) :: rest)) =
      some ("0") := by
  have h0 : normalizeCodigo c = "0" := by
    unfold normalizeCodigo
    rw [h]
    decide
  refine ⟨h0, ?_⟩
  simp only [load_horarios_mapping, List.map_cons]
  unfold find_codigo_horario
  rw [List.find?_cons_of_pos _ (by simp)]
  rw [h0]
  show some (trimStr ("0")) = some ("0")
  decide

/-- C10 witness: the non-numeric code cell `"abc"` with key `"T9"`. -/
theorem unparseable_code_stored_as_zero_witness :
    parseNumericInt ("abc") = none ∧
    normalizeCodigo ("abc") = "0" ∧
    find_codigo_horario ("T9") (load_horarios_mapping [("abc", "T9")]) =
      some ("0") :=
  ⟨by decide,
    (unparseable_code_stored_as_zero ("abc") ("T9") [] (by decide)).1,
    (unparseable_code_stored_as_zero ("abc") ("T9") [] (by decide)).2⟩

end EnvioTurnos
